import Mathlib

/-!
Verification of the communicare backend assessment subsystem.

Shallow embedding of the assessment generation and response-validation
pipeline of the repository:
  - answer validation (src/api/v1/assessment/assessment.validation.js,
    re-exported through assessment.model.js);
  - the cooldown gate (assessment.model.js, canGenerateNewAssessment);
  - the submission flow and its one-response-per-assessment invariant
    (assessment.service.js, assessmentResponse.model.js);
  - LLM output structural validation (assessment.service.js and
    helpers/llmService.js);
  - the retry loop of generateCompletion (helpers/llmService.js);
  - context budgeting (helpers/tokenCounter.js);
  - context assembly and field stripping (helpers/toonContext.js).

Modelling conventions: JavaScript numbers appearing in the answer
validator and the cooldown gate are modelled as integers (all values the
spec deals in are integral; the comparison logic is order-faithful), JSON
numbers from the LLM as rationals, timestamps as integer milliseconds.
External collaborators (JSON.parse, tiktoken, the database) appear as
explicit function parameters or as explicit state.
-/

namespace Communicare

/-! ## JavaScript values carried by answers and question options -/

/-- A JavaScript value as it appears in an answer `value` or a question
option `value` (Joi admits string, number, boolean, array). Numbers are
modelled as integers. -/
inductive JSValue where
  | str (s : String)
  | num (n : Int)
  | bool (b : Bool)
  | arr (vs : List JSValue)

/-- JavaScript `String(v)` conversion as used in the option membership
checks: a string stays itself, a number prints in decimal, a boolean
prints true or false, an array joins its elements with commas. -/
def jsString : JSValue → String
  | .str s => s
  | .num n => toString n
  | .bool b => if b then "true" else "false"
  | .arr vs => String.intercalate "," (vs.attach.map (fun v => jsString v.1))
decreasing_by
  have h := List.sizeOf_lt_of_mem v.2
  simp only [JSValue.arr.sizeOf_spec]
  omega

/-- JavaScript String.prototype.trim modelled on the character list:
leading and trailing whitespace removed. -/
def jsTrim (s : String) : String :=
  ⟨((s.data.dropWhile Char.isWhitespace).reverse.dropWhile Char.isWhitespace).reverse⟩

/-- JavaScript String.prototype.startsWith on the character list. -/
def strStartsWith (s p : String) : Bool :=
  p.data.isPrefixOf s.data

/-- JavaScript String.prototype.endsWith on the character list. -/
def strEndsWith (s p : String) : Bool :=
  p.data.isSuffixOf s.data

/-- Drop the first n characters. -/
def strDrop (s : String) (n : Nat) : String :=
  ⟨s.data.drop n⟩

/-- Drop the last n characters. -/
def strDropRight (s : String) (n : Nat) : String :=
  ⟨(s.data.reverse.drop n).reverse⟩

/-- Drop leading characters while the predicate holds. -/
def strDropWhile (s : String) (p : Char → Bool) : String :=
  ⟨s.data.dropWhile p⟩

/-- Drop trailing characters while the predicate holds. -/
def strDropRightWhile (s : String) (p : Char → Bool) : String :=
  ⟨(s.data.reverse.dropWhile p).reverse⟩

/-! ## Question and answer data model (assessment.model.js) -/

/-- One entry of a question option list: id, label and a caller-typed
value. -/
structure QuestionOption where
  id : String
  label : String
  value : JSValue


/-- One conditional-display rule of a question. The validator never reads
these; they drive front-end visibility only. -/
structure QCondition where
  questionId : String
  operator : String
  value : JSValue


/-- A question of a generated assessment. `options`, `min`, `max`, `step`
are absent (`none`) when the JavaScript field is null or undefined;
`options = some []` models a present but empty array (truthy in
JavaScript). `type` is kept as a string because the source switches on
the string. -/
structure Question where
  id : String
  type : String
  label : String
  required : Bool
  options : Option (List QuestionOption)
  min : Option Int
  max : Option Int
  step : Option Int
  conditions : List QCondition


/-- A submitted answer: question id, declared question type, and value. -/
structure Answer where
  questionId : String
  questionType : String
  value : JSValue


/-! ## Answer validator (validateAnswer, assessment.validation.js 315-409) -/

/-- Case long_text of the `validateAnswer` switch: the value must be a
string, and non-blank after trimming when the question is required. -/
def validateLongText (answer : Answer) (question : Question) : Option String :=
  match answer.value with
  | .str s =>
    if question.required && (jsTrim s == "") then
      some ("Answer for " ++ question.id ++ " is required")
    else none
  | _ => some ("Answer for " ++ question.id ++ " must be a string")

/-- Case single_choice of the `validateAnswer` switch: the value must be
a string and, when options are defined, match one option value compared
as text (JavaScript String conversion on both sides). -/
def validateSingleChoice (answer : Answer) (question : Question) : Option String :=
  match answer.value with
  | .str s =>
    match question.options with
    | some opts =>
      let validOptions := opts.map (fun opt => jsString opt.value)
      if validOptions.contains (jsString (.str s)) then none
      else some ("Invalid option for " ++ question.id)
    | none => none
  | _ => some ("Answer for " ++ question.id ++ " must be a single option")

/-- Case multi_choice of the `validateAnswer` switch: the value must be
an array, non-empty when the question is required, and when options are
defined every element must match one option value compared as text. -/
def validateMultiChoice (answer : Answer) (question : Question) : Option String :=
  match answer.value with
  | .arr vs =>
    if question.required && vs.length == 0 then
      some ("At least one option required for " ++ question.id)
    else
      match question.options with
      | some opts =>
        let validOptions := opts.map (fun opt => jsString opt.value)
        if vs.all (fun v => validOptions.contains (jsString v)) then none
        else some ("Invalid option in " ++ question.id)
      | none => none
  | _ => some ("Answer for " ++ question.id ++ " must be an array")

/-- Cases numeric and rating_numeric of the `validateAnswer` switch: the
value must be a number and respect each defined bound inclusively. -/
def validateNumericValue (answer : Answer) (question : Question) : Option String :=
  match answer.value with
  | .num n =>
    let maxCheck : Option String :=
      match question.max with
      | some hi =>
        if hi < n then
          some ("Answer for " ++ question.id ++ " must be at most " ++ toString hi)
        else none
      | none => none
    match question.min with
    | some lo =>
      if n < lo then
        some ("Answer for " ++ question.id ++ " must be at least " ++ toString lo)
      else maxCheck
    | none => maxCheck
  | _ => some ("Answer for " ++ question.id ++ " must be a number")

/-- Cases rating_likert and rating_frequency of the `validateAnswer`
switch: the value must be a string matching one option value compared as
text when options are defined. -/
def validateRatingChoice (answer : Answer) (question : Question) : Option String :=
  match answer.value with
  | .str s =>
    match question.options with
    | some opts =>
      let validOptions := opts.map (fun opt => jsString opt.value)
      if validOptions.contains (jsString (.str s)) then none
      else some ("Invalid rating for " ++ question.id)
    | none => none
  | _ => some ("Answer for " ++ question.id ++ " must be a string option")

/-- Case rating_slider of the `validateAnswer` switch: bounds enforced
like numeric, with the slider wording. -/
def validateSliderValue (answer : Answer) (question : Question) : Option String :=
  match answer.value with
  | .num n =>
    let maxCheck : Option String :=
      match question.max with
      | some hi =>
        if hi < n then
          some ("Slider value for " ++ question.id ++ " must be at most " ++ toString hi)
        else none
      | none => none
    match question.min with
    | some lo =>
      if n < lo then
        some ("Slider value for " ++ question.id ++ " must be at least " ++ toString lo)
      else maxCheck
    | none => maxCheck
  | _ => some ("Answer for " ++ question.id ++ " must be a number")

/-- Validation of a single answer against its question definition,
translated from `validateAnswer`: the two identity checks, then the
switch on the question type (each switch arm is the definition above
named for it), with the default arm for an unknown type. Returns
`some error` for the first failing check of that answer, `none` when the
answer is valid. -/
def validateAnswer (answer : Answer) (question : Question) : Option String :=
  if answer.questionId != question.id then
    some "Answer question ID does not match"
  else if answer.questionType != question.type then
    some ("Answer type mismatch for question " ++ question.id)
  else if question.type == "long_text" then
    validateLongText answer question
  else if question.type == "single_choice" then
    validateSingleChoice answer question
  else if question.type == "multi_choice" then
    validateMultiChoice answer question
  else if question.type == "numeric" || question.type == "rating_numeric" then
    validateNumericValue answer question
  else if question.type == "rating_likert" || question.type == "rating_frequency" then
    validateRatingChoice answer question
  else if question.type == "rating_slider" then
    validateSliderValue answer question
  else
    some ("Unknown question type: " ++ question.type)

/-- Result record of `validateAnswers`. -/
structure ValidationResult where
  valid : Bool
  errors : List String


/-- Validation of a full answer set against the list of question
definitions, translated from `validateAnswers`: first one error per
required question whose id is absent from the answers, then one error per
answer (unknown question, or the error of `validateAnswer`); the result
is valid when the error list is empty. -/
def validateAnswers (answers : List Answer) (questions : List Question) : ValidationResult :=
  let answeredQuestionIds := answers.map (fun a => a.questionId)
  let requiredErrors := questions.filterMap (fun question =>
    if question.required && !(answeredQuestionIds.contains question.id) then
      some ("Required question not answered: " ++ question.id)
    else none)
  let answerErrors := answers.filterMap (fun answer =>
    match questions.find? (fun q => q.id == answer.questionId) with
    | none => some ("Answer provided for unknown question: " ++ answer.questionId)
    | some question => validateAnswer answer question)
  let errors := requiredErrors ++ answerErrors
  { valid := errors.isEmpty, errors := errors }

/-! ## Cooldown gate (canGenerateNewAssessment, assessment.model.js 173-195) -/

/-- Milliseconds in one 24h day, the divisor 1000 * 60 * 60 * 24. -/
def msPerDay : Int := 86400000

/-- The fields of the most recent active assessment that the cooldown
gate reads: its creation timestamp (milliseconds) and its stored
`minDaysBeforeNextAssessment`. -/
structure LatestAssessment where
  createdAtMs : Int
  minDaysBeforeNextAssessment : Int


/-- Decision record returned by the cooldown gate. Fields that the
source leaves absent on a given path are `none`. -/
structure CooldownResult where
  allowed : Bool
  reason : Option String
  daysSinceLastAssessment : Option Int
  daysRemaining : Option Int
  lastAssessmentDate : Option Int


/-- Cooldown gate translated from `canGenerateNewAssessment`. The
database lookup `findLatestByUserAndConcern` is modelled by the `latest`
argument: `none` when no active assessment exists for the
(user, health concern) pair, otherwise the most recently created one.
`Math.floor` division of milliseconds is `Int.fdiv`. -/
def canGenerateNewAssessment (latest : Option LatestAssessment) (nowMs : Int) : CooldownResult :=
  match latest with
  | none =>
    { allowed := true, reason := some "No previous assessment found",
      daysSinceLastAssessment := none, daysRemaining := none, lastAssessmentDate := none }
  | some latestAssessment =>
    let daysSinceLastAssessment := Int.fdiv (nowMs - latestAssessment.createdAtMs) msPerDay
    if latestAssessment.minDaysBeforeNextAssessment ≤ daysSinceLastAssessment then
      { allowed := true, reason := none,
        daysSinceLastAssessment := some daysSinceLastAssessment,
        daysRemaining := none, lastAssessmentDate := none }
    else
      let daysRemaining := latestAssessment.minDaysBeforeNextAssessment - daysSinceLastAssessment
      { allowed := false,
        reason := some ("Must wait " ++ toString daysRemaining ++ " more day(s) before next assessment"),
        daysSinceLastAssessment := none,
        daysRemaining := some daysRemaining,
        lastAssessmentDate := some latestAssessment.createdAtMs }

/-! ## Response store and submission flow
(submitAssessmentResponse, assessment.service.js 162-226, and the unique
index on the assessment reference, assessmentResponse.model.js 86) -/

/-- Error taxonomy of the submission flow. `duplicateKey` is the
storage-level rejection produced by the unique index
`{ assessment: 1 }, { unique: true }` when an insert for an
already-referenced assessment reaches the store. -/
inductive SubmitError where
  | notFound (msg : String)
  | conflict (msg : String)
  | badRequest (msg : String)
  | duplicateKey
deriving DecidableEq, Repr

/-- A stored assessment response for the fixed assessment under
consideration: the submitting user and the submitted answers. -/
structure StoredResponse where
  user : Nat
  answers : List Answer


/-- Outcome of one sequential submission: the value returned or error
thrown, together with the store contents (for the one assessment) after
the call. -/
structure SubmitOutcome where
  result : Except SubmitError StoredResponse
  store : Option StoredResponse


/-- Sequential submission flow for one fixed assessment, translated from
`submitAssessmentResponse`. `assessmentFound` models whether the
assessment fetch (by id, owner and isActive) succeeded, `questions` are
its questions, `store` is the current contents of the response store for
this assessment. Steps in source order: fetch, existing-response check,
answer validation, save. -/
def submitAssessmentResponse (assessmentFound : Bool) (questions : List Question)
    (answers : List Answer) (store : Option StoredResponse) (userId : Nat) : SubmitOutcome :=
  if !assessmentFound then
    { result := .error (.notFound "Assessment not found"), store := store }
  else
    match store with
    | some existingResponse =>
      { result := .error (.conflict "Assessment has already been completed"),
        store := some existingResponse }
    | none =>
      let validation := validateAnswers answers questions
      if !validation.valid then
        { result := .error (.badRequest ("Answer validation failed: " ++
            String.intercalate ", " validation.errors)), store := none }
      else
        let response : StoredResponse := { user := userId, answers := answers }
        { result := .ok response, store := some response }

deriving instance DecidableEq for Except

/-- Phase of one concurrent submitter: before its existing-response
check, between the check and the save, or finished with a result. -/
inductive ProcPhase where
  | start
  | readyToSave
  | done (r : Except SubmitError Unit)
deriving DecidableEq, Repr

/-- Shared state of the two-submitter race for one assessment: the
response store (who won, if anyone) and each submitter phase. -/
structure RaceState where
  store : Option (Fin 2)
  p0 : ProcPhase
  p1 : ProcPhase
deriving DecidableEq, Repr

/-- One asynchronous step of submitter `i`: its read of the existing
response (the `findOne` precondition check) or its save. The save is
the atomic storage operation; the unique index on the assessment
reference makes a second insert fail with a duplicate-key error even
when both precondition checks passed. -/
def procStep (store : Option (Fin 2)) (i : Fin 2) :
    ProcPhase → ProcPhase × Option (Fin 2)
  | .start =>
    match store with
    | some _ => (.done (.error (.conflict "Assessment has already been completed")), store)
    | none => (.readyToSave, store)
  | .readyToSave =>
    match store with
    | some _ => (.done (.error .duplicateKey), store)
    | none => (.done (.ok ()), some i)
  | .done r => (.done r, store)

/-- Run one scheduled step of the race: scheduler entry `i` advances
submitter `i`. -/
def raceStep (s : RaceState) (i : Fin 2) : RaceState :=
  if i = 0 then
    let (p, st) := procStep s.store 0 s.p0
    { s with p0 := p, store := st }
  else
    let (p, st) := procStep s.store 1 s.p1
    { s with p1 := p, store := st }

/-- Execute a schedule (an interleaving of the two submitters) from the
empty store. -/
def raceRun (sched : List (Fin 2)) : RaceState :=
  sched.foldl raceStep { store := none, p0 := .start, p1 := .start }

/-- All interleavings of the two steps (check, save) of each of the two
submitters. -/
def allInterleavings : List (List (Fin 2)) :=
  [[0, 0, 1, 1], [0, 1, 0, 1], [0, 1, 1, 0], [1, 0, 0, 1], [1, 0, 1, 0], [1, 1, 0, 0]]

/-- Whether a finished submitter succeeded. -/
def phaseOk : ProcPhase → Bool
  | .done (.ok _) => true
  | _ => false

/-- Whether a finished submitter observed a uniqueness-derived rejection:
the application-level conflict or the storage-level duplicate key. -/
def phaseRejected : ProcPhase → Bool
  | .done (.error (.conflict _)) => true
  | .done (.error .duplicateKey) => true
  | _ => false

/-! ## JSON values and LLM output structural validation
(_validateLLMResponse, assessment.service.js 358-377, and
generateStructuredOutput, llmService.js 227-258) -/

/-- A parsed JSON value as produced by `JSON.parse`. Numbers are
rationals (JSON numbers need not be integers). -/
inductive Json where
  | null
  | bool (b : Bool)
  | num (q : Rat)
  | str (s : String)
  | arr (xs : List Json)
  | obj (fields : List (String × Json))

/-- Property access `j.key`: `some` value on an object that has the key,
`none` (undefined) otherwise. -/
def getField (j : Json) (key : String) : Option Json :=
  match j with
  | .obj fields => fields.lookup key
  | _ => none

/-- JavaScript truthiness of a JSON value: null, false, 0 and the empty
string are falsy; objects and arrays are always truthy. -/
def jsTruthy : Json → Bool
  | .null => false
  | .bool b => b
  | .num q => !(q == 0)
  | .str s => !(s == "")
  | .arr _ => true
  | .obj _ => true

/-- Truthiness of a property access, `!!j.key`: false when the field is
absent (undefined). -/
def jsFieldTruthy (j : Json) (key : String) : Bool :=
  match getField j key with
  | some v => jsTruthy v
  | none => false

/-- Structural validation of the parsed LLM output, translated check for
check from `_validateLLMResponse`: truthy severity contained in the
severity enum, a numeric non-negative `min_days_before_next_assessment`,
a non-empty `questions` array, and truthy id, type and label on every
question entry. Throws (returns `.error`) on the first violation. -/
def validateLLMResponse (data : Json) : Except String Unit :=
  let severityOk :=
    match getField data "severity" with
    | some (.str s) => jsTruthy (.str s) && (s == "low" || s == "moderate" || s == "high")
    | _ => false
  if !severityOk then
    .error "Invalid severity level in LLM response"
  else
    let minDaysOk :=
      match getField data "min_days_before_next_assessment" with
      | some (.num q) => !(q < 0)
      | _ => false
    if !minDaysOk then
      .error "Invalid min_days_before_next_assessment in LLM response"
    else
      match getField data "questions" with
      | some (.arr questions) =>
        if questions.length == 0 then
          .error "No questions generated in LLM response"
        else if questions.all (fun question =>
            jsFieldTruthy question "id" && jsFieldTruthy question "type" &&
            jsFieldTruthy question "label") then
          .ok ()
        else
          .error "Invalid question structure in LLM response: missing id, type, or label"
      | _ => .error "No questions generated in LLM response"

/-- Markdown code fence stripping of `generateStructuredOutput`: trim the
content; if it starts with a json fence drop the seven fence characters
and following whitespace, else if it starts with a bare fence drop the
three fence characters and following whitespace; in either fence case,
when the result ends with a closing fence, drop it and the whitespace
before it (the replace of the anchored trailing-fence pattern); without a
leading fence the content is only trimmed. -/
def cleanLLMContent (content : String) : String :=
  let c := jsTrim content
  if strStartsWith c "```json" then
    let afterOpen := strDropWhile (strDrop c 7) Char.isWhitespace
    if strEndsWith afterOpen "```" then
      strDropRightWhile (strDropRight afterOpen 3) Char.isWhitespace
    else afterOpen
  else if strStartsWith c "```" then
    let afterOpen := strDropWhile (strDrop c 3) Char.isWhitespace
    if strEndsWith afterOpen "```" then
      strDropRightWhile (strDropRight afterOpen 3) Char.isWhitespace
    else afterOpen
  else c

/-- Data carried by a persisted assessment, as filled from the validated
LLM output by `generateAssessment` step 9 (severity,
`min_days_before_next_assessment`, questions). -/
structure PersistedAssessment where
  severity : Json
  minDaysBeforeNextAssessment : Json
  questions : Json

/-- Parse step of `generateStructuredOutput`: strip the fence, then hand
the cleaned string to `JSON.parse` (the external collaborator
`parseJson`; `none` models a parse exception). A parse failure is the
fatal error of the source; otherwise the parsed data is returned. -/
def generateStructuredOutput (parseJson : String → Option Json) (content : String) :
    Except String Json :=
  match parseJson (cleanLLMContent content) with
  | some parsed => .ok parsed
  | none => .error "Failed to parse LLM response as JSON"

/-- Tail of the generation flow after the LLM call, translated from
`generateAssessment` steps 7-9: parse the raw content, validate the
structure, and only then build the assessment document to persist. Any
error aborts before anything is persisted, so `.error` carries no
assessment. -/
def persistFromLLM (parseJson : String → Option Json) (content : String) :
    Except String PersistedAssessment :=
  match generateStructuredOutput parseJson content with
  | .error e => .error e
  | .ok data =>
    match validateLLMResponse data with
    | .error e => .error e
    | .ok _ =>
      .ok { severity := (getField data "severity").getD .null,
            minDaysBeforeNextAssessment :=
              (getField data "min_days_before_next_assessment").getD .null,
            questions := (getField data "questions").getD .null }

/-! ## LLM call retry loop (generateCompletion, llmService.js 57-220) -/

/-- Outcome of one underlying chat-completion request: either a reply
(content with the empty-string default already applied, and an optional
refusal), or a thrown API error with its optional HTTP status, optional
error code, and message. -/
inductive AttemptOutcome where
  | reply (content : String) (refusal : Option String)
  | apiError (status : Option Nat) (code : Option String) (msg : String)
deriving DecidableEq, Repr

/-- Backoff delay before retry attempt `attempt + 1`:
`Math.min(1000 * Math.pow(2, attempt), 10000)`. -/
def backoffMs (attempt : Nat) : Nat := min (1000 * 2 ^ attempt) 10000

/-- Action decided by one iteration of the catch block. -/
inductive CatchAction where
  | fatal (finalMsg : String)
  | retryAfter (delayMs : Nat)

/-- Catch block of `generateCompletion`, translated branch for branch:
401 is fatal at once; 429/503 and 500/502 retry with backoff while
attempts remain and otherwise become the rate-limit or server-error
message; the context-length code is fatal at once; every other error —
including the refusal and empty-content errors thrown inside the try,
which carry no status — is fatal at once with the generic message. -/
def handleAttemptError (status : Option Nat) (code : Option String) (msg : String)
    (attempt maxRetries : Nat) : CatchAction :=
  if status = some 401 then
    .fatal "Invalid OpenAI API key"
  else if status = some 429 || status = some 503 then
    if attempt < maxRetries - 1 then .retryAfter (backoffMs attempt)
    else .fatal "OpenAI API rate limit exceeded. Please try again later."
  else if status = some 500 || status = some 502 then
    if attempt < maxRetries - 1 then .retryAfter (backoffMs attempt)
    else .fatal "OpenAI API server error. Please try again later."
  else if code = some "context_length_exceeded" then
    .fatal "Context length exceeded. Please reduce the input size."
  else
    .fatal ("LLM API error: " ++ msg)

/-- Result of a whole `generateCompletion` run: the returned content or
thrown error, how many attempts were issued, and the backoff delays
actually slept (in order). -/
structure RunResult where
  result : Except String String
  attemptsMade : Nat
  delays : List Nat
deriving DecidableEq, Repr

/-- Retry loop of `generateCompletion` from a given attempt index. The
underlying request is the collaborator `f`, giving the outcome of each
attempt. A reply with a refusal or with blank content raises an error
without status or code inside the try, which the catch block then
classifies; a good reply returns its content. The fallthrough branch
models the post-loop throw of the source (its message also carries the
last error there); it is unreachable whenever maxRetries is at least 1,
since the loop only continues when further attempts remain. -/
def runGenerateCompletion (f : Nat → AttemptOutcome) (maxRetries : Nat)
    (attempt : Nat) (delays : List Nat) : RunResult :=
  if _h : attempt < maxRetries then
    match f attempt with
    | .reply content refusal =>
      match refusal with
      | some r =>
        match handleAttemptError none none ("OpenAI refused: " ++ r) attempt maxRetries with
        | .fatal m => { result := .error m, attemptsMade := attempt + 1, delays := delays }
        | .retryAfter b => runGenerateCompletion f maxRetries (attempt + 1) (delays ++ [b])
      | none =>
        if jsTrim content == "" then
          match handleAttemptError none none "OpenAI returned empty content" attempt maxRetries with
          | .fatal m => { result := .error m, attemptsMade := attempt + 1, delays := delays }
          | .retryAfter b => runGenerateCompletion f maxRetries (attempt + 1) (delays ++ [b])
        else
          { result := .ok content, attemptsMade := attempt + 1, delays := delays }
    | .apiError status code msg =>
      match handleAttemptError status code msg attempt maxRetries with
      | .fatal m => { result := .error m, attemptsMade := attempt + 1, delays := delays }
      | .retryAfter b => runGenerateCompletion f maxRetries (attempt + 1) (delays ++ [b])
  else
    { result := .error ("LLM API failed after " ++ toString maxRetries ++ " attempts"),
      attemptsMade := attempt, delays := delays }
termination_by maxRetries - attempt

/-- Whole `generateCompletion` call with its retry loop starting at
attempt 0 (the source default bound is `maxRetries = 3`). -/
def generateCompletion (f : Nat → AttemptOutcome) (maxRetries : Nat) : RunResult :=
  runGenerateCompletion f maxRetries 0 []

/-- Whether an attempt outcome is one the catch block retries: an API
error with HTTP status 429, 503, 500 or 502 (rate limit or server
error). -/
def isTransient : AttemptOutcome → Bool
  | .apiError (some s) _ _ => s == 429 || s == 503 || s == 500 || s == 502
  | _ => false

/-! ## Context budgeting (optimizeContext, tokenCounter.js 114-153) -/

/-- Result record of `optimizeContext`. `originalTokenCount` is only set
on the truncation path of the source. -/
structure OptimizeResult where
  text : String
  tokenCount : Nat
  wasTruncated : Bool
  originalTokenCount : Option Nat
deriving DecidableEq, Repr

/-- Token counting of `countTokens` for a fixed model: the empty string
(falsy) counts as 0, otherwise the external tiktoken encoder `count`
gives the count. -/
def countTokensJS (count : String → Nat) (text : String) : Nat :=
  if text == "" then 0 else count text

/-- Context budgeting translated from `optimizeContext` for a string
context. The external collaborators are the tiktoken token counter
`count` and the encode/slice/decode truncation `truncateTo` (giving the
text of the first `maxTokens` tokens). An empty (falsy) context
short-circuits; a context within budget is returned unchanged; an
oversized context is truncated and the truncation marker appended. -/
def optimizeContext (count : String → Nat) (truncateTo : String → Nat → String)
    (context : String) (maxTokens : Nat) : OptimizeResult :=
  if context == "" then
    { text := "", tokenCount := 0, wasTruncated := false, originalTokenCount := none }
  else
    let originalTokenCount := countTokensJS count context
    if originalTokenCount ≤ maxTokens then
      { text := context, tokenCount := originalTokenCount,
        wasTruncated := false, originalTokenCount := none }
    else
      { text := truncateTo context maxTokens ++ "\n\n[Context truncated due to length...]",
        tokenCount := maxTokens, wasTruncated := true,
        originalTokenCount := some originalTokenCount }

/-! ## Context assembly (cleanContext and buildAssessmentContext,
toonContext.js 16-48 and 88-134) -/

/-- A JavaScript value inside the generation context object: primitive,
Date, array or plain object (ordered key/value list). -/
inductive CtxVal where
  | null
  | str (s : String)
  | num (n : Int)
  | bool (b : Bool)
  | date (ms : Int)
  | arr (xs : List CtxVal)
  | obj (fields : List (String × CtxVal))

/-- The sensitive fields stripped by `cleanContext`. -/
def fieldsToRemove : List String :=
  ["password", "refreshToken", "accessToken", "__v", "llmMetadata", "reportPayload"]

/-- JavaScript truthiness of a context value (used for the `value._id`
check): null, false, 0 and empty string are falsy. -/
def ctxTruthy : CtxVal → Bool
  | .null => false
  | .str s => !(s == "")
  | .num n => !(n == 0)
  | .bool b => b
  | .date _ => true
  | .arr _ => true
  | .obj _ => true

/-- The `toString()` applied to a collapsed `_id` value. ObjectIds are
modelled as their hex strings, so this is the string itself on the
values occurring in the context. -/
def ctxLeafString : CtxVal → String
  | .str s => s
  | .num n => toString n
  | .bool b => if b then "true" else "false"
  | _ => ""

mutual

/-- Recursive field stripping translated from `cleanContext`. Primitives
and null are returned as-is (the typeof guard); an object iterates its
entries, skipping the sensitive keys and transforming each kept value
with the per-entry logic of the loop body; an argument that is itself an
array or a Date is run through `Object.entries` like any object, giving
an index-keyed object for an array (index keys never collide with the
sensitive keys) and an empty object for a Date. -/
def cleanContext : CtxVal → CtxVal
  | .obj fields =>
    .obj (fields.attach.filterMap (fun kv =>
      if fieldsToRemove.contains kv.1.1 then none
      else some (kv.1.1, cleanEntryValue kv.1.2)))
  | .arr xs =>
    .obj (((List.range xs.length).map (fun i => toString i)).zip
      (xs.attach.map (fun x => cleanEntryValue x.1)))
  | .date _ => .obj []
  | v => v
termination_by v => (sizeOf v, 0)
decreasing_by
  all_goals first
  | (obtain ⟨⟨a, b⟩, hm⟩ := kv
     have h1 := List.sizeOf_lt_of_mem hm
     simp only [CtxVal.obj.sizeOf_spec, Prod.mk.sizeOf_spec] at h1 ⊢
     omega)
  | (have h1 := List.sizeOf_lt_of_mem x.2
     simp only [CtxVal.arr.sizeOf_spec]
     omega)

/-- Per-entry value transform of the `cleanContext` loop body: an array
value maps `cleanContext` over its items; an object value collapses to
`value._id.toString()` when it has a truthy `_id` and exactly one key,
and otherwise recurses; Dates, primitives and null are kept as leaves. -/
def cleanEntryValue : CtxVal → CtxVal
  | .arr xs => .arr (xs.attach.map (fun x => cleanContext x.1))
  | .obj fs =>
    if ctxTruthy ((fs.lookup "_id").getD .null) && fs.length == 1 then
      .str (ctxLeafString ((fs.lookup "_id").getD .null))
    else cleanContext (.obj fs)
  | v => v
termination_by v => (sizeOf v, 1)
decreasing_by
  all_goals first
  | (have h1 := List.sizeOf_lt_of_mem x.2
     simp only [CtxVal.arr.sizeOf_spec]
     omega)
  | omega

end

/-- The user document as fetched for generation. `buildAssessmentContext`
receives it whole, credentials included; the context must not depend on
any of it. `version` is the mongoose `__v` revision counter. -/
structure UserDoc where
  name : String
  email : String
  password : String
  refreshToken : String
  accessToken : String
  role : String
  version : Int


/-- A populated chronic condition document. Only `name` and
`description` may reach the context. -/
structure ChronicConditionDoc where
  conditionId : String
  name : String
  description : String
  version : Int


/-- A populated allergy document. Only `name` and `category` may reach
the context. -/
structure AllergyDoc where
  allergyId : String
  name : String
  category : String
  version : Int


/-- The patient document (with populated conditions and allergies).
`birthDate` is milliseconds since epoch, `none` when unset. -/
structure PatientDoc where
  birthDate : Option Int
  gender : Option String
  chronicConditions : List ChronicConditionDoc
  allergies : List AllergyDoc
  medicalHistory : Option String
  version : Int


/-- The health concern document fields read by the context builder, plus
its `__v` revision counter. -/
structure HealthConcernDoc where
  title : String
  chiefComplaint : String
  symptoms : String
  onsetDescription : Option String
  onsetValue : Option Int
  onsetUnit : Option String
  severity : Option String
  status : String
  notes : Option String
  version : Int


/-- A prior assessment row as fetched (lean) for context building, with
its `hasResponse` flag already attached by the service loop. The builder
may use only its creation time, severity, question count and
`hasResponse`; `llmMetadata` and the question bodies must not leak. -/
structure PrevAssessmentDoc where
  createdAtMs : Int
  severity : String
  questions : Option (List Question)
  hasResponse : Bool
  minDaysBeforeNextAssessment : Int
  llmMetadata : CtxVal
  version : Int


/-- Milliseconds in one average year, the divisor
`365.25 * 24 * 60 * 60 * 1000` (an exact integer). -/
def msPerYear : Int := 31557600000

/-- JavaScript string-or-default `x || d` for an optional string: the
default is used when the field is absent or empty (falsy). -/
def strOrDefault (x : Option String) (d : String) : String :=
  match x with
  | some s => if s == "" then d else s
  | none => d

/-- Template-literal rendering of an optional number or string
(`undefined` prints as the string undefined). -/
def tmplInt (x : Option Int) : String :=
  match x with
  | some n => toString n
  | none => "undefined"

/-- Template-literal rendering of an optional string. -/
def tmplStr (x : Option String) : String :=
  match x with
  | some s => s
  | none => "undefined"

/-- The raw context object assembled by `buildAssessmentContext` before
cleaning, field for field from the source: patient age (floor of the
millisecond difference over one average year when a birth date is
present) and gender; the health concern fields with the onset fallback
template; the prior assessments each projected to creation time,
severity, question count (`a.questions?.length || 0`) and `hasResponse`;
and, only when patient data exists, the non-empty chronic condition and
allergy projections and a truthy medical history. The `user` argument is
received but never read by the source builder. -/
def rawAssessmentContext (nowMs : Int) (_user : UserDoc) (patientData : Option PatientDoc)
    (healthConcern : HealthConcernDoc) (previousAssessments : List PrevAssessmentDoc) : CtxVal :=
  let base : List (String × CtxVal) :=
    [("patient", .obj
        [("age",
          match patientData with
          | some p =>
            match p.birthDate with
            | some b => .num (Int.fdiv (nowMs - b) msPerYear)
            | none => .null
          | none => .null),
         ("gender",
          .str (strOrDefault (match patientData with
            | some p => p.gender
            | none => none) "not specified"))]),
     ("healthConcern", .obj
        [("title", .str healthConcern.title),
         ("chiefComplaint", .str healthConcern.chiefComplaint),
         ("symptoms", .str healthConcern.symptoms),
         ("onset",
          .str (strOrDefault healthConcern.onsetDescription
            (tmplInt healthConcern.onsetValue ++ " " ++ tmplStr healthConcern.onsetUnit))),
         ("severity",
          match healthConcern.severity with
          | some s => .str s
          | none => .null),
         ("status", .str healthConcern.status),
         ("notes",
          match healthConcern.notes with
          | some s => .str s
          | none => .null)]),
     ("previousAssessments", .arr (previousAssessments.map (fun a =>
        .obj [("createdAt", .date a.createdAtMs),
              ("severity", .str a.severity),
              ("questionCount", .num (match a.questions with
                | some qs => (qs.length : Int)
                | none => 0)),
              ("hasResponse", .bool a.hasResponse)])))]
  let withConditions :=
    match patientData with
    | some p =>
      if p.chronicConditions.length > 0 then
        base ++ [("chronicConditions", .arr (p.chronicConditions.map (fun c =>
          .obj [("name", .str c.name), ("description", .str c.description)])))]
      else base
    | none => base
  let withAllergies :=
    match patientData with
    | some p =>
      if p.allergies.length > 0 then
        withConditions ++ [("allergies", .arr (p.allergies.map (fun a =>
          .obj [("name", .str a.name), ("category", .str a.category)])))]
      else withConditions
    | none => withConditions
  let withHistory :=
    match patientData with
    | some p =>
      match p.medicalHistory with
      | some h => if h == "" then withAllergies
          else withAllergies ++ [("medicalHistory", .str h)]
      | none => withAllergies
    | none => withAllergies
  .obj withHistory

/-- Assembled generation context after cleaning, as handed to the TOON
encoder by `buildToonContext`: the serialized context is the image of
this value under the external encoder. -/
def buildAssessmentContextVal (nowMs : Int) (user : UserDoc) (patientData : Option PatientDoc)
    (healthConcern : HealthConcernDoc) (previousAssessments : List PrevAssessmentDoc) : CtxVal :=
  cleanContext (rawAssessmentContext nowMs user patientData healthConcern previousAssessments)

/-- Projection of a patient document to the fields the context builder
reads (everything except `__v` and the sensitive remainder of the
populated documents). -/
def patientProj (p : PatientDoc) :
    Option Int × Option String × List (String × String) × List (String × String) × Option String :=
  (p.birthDate, p.gender, p.chronicConditions.map (fun c => (c.name, c.description)),
   p.allergies.map (fun a => (a.name, a.category)), p.medicalHistory)

/-- Projection of a health concern document to the fields the context
builder reads (everything except `__v`). -/
def concernProj (h : HealthConcernDoc) :
    String × String × String × Option String × Option Int × Option String ×
    Option String × String × Option String :=
  (h.title, h.chiefComplaint, h.symptoms, h.onsetDescription, h.onsetValue, h.onsetUnit,
   h.severity, h.status, h.notes)

/-- Projection of a prior assessment to the four values the spec allows
into the context: creation time, severity, question count, and the
whether-answered flag. -/
def prevProj (a : PrevAssessmentDoc) : Int × String × Int × Bool :=
  (a.createdAtMs, a.severity,
   (match a.questions with
    | some qs => (qs.length : Int)
    | none => 0), a.hasResponse)

/-! ## Claim C1: the cooldown gate -/

/-- C1: Cooldown Gate correctness. With no active assessment for the
pair the decision is allowed; otherwise, with elapsed the floored
24h-day count since the latest active assessment, the decision is
allowed iff elapsed is at least the stored minimum; a denial carries
daysRemaining equal to the minimum minus elapsed together with the
blocking creation date; and with a minimum of 14 days, a request at
T plus 13 days 23 hours is denied with one day remaining while a
request at T plus 14 days is allowed. -/
theorem cooldown_gate_spec :
    (∀ nowMs : Int, (canGenerateNewAssessment none nowMs).allowed = true) ∧
    (∀ (a : LatestAssessment) (nowMs : Int),
      (canGenerateNewAssessment (some a) nowMs).allowed = true ↔
        a.minDaysBeforeNextAssessment ≤ Int.fdiv (nowMs - a.createdAtMs) msPerDay) ∧
    (∀ (a : LatestAssessment) (nowMs : Int),
      (canGenerateNewAssessment (some a) nowMs).allowed = false →
        (canGenerateNewAssessment (some a) nowMs).daysRemaining =
          some (a.minDaysBeforeNextAssessment - Int.fdiv (nowMs - a.createdAtMs) msPerDay) ∧
        (canGenerateNewAssessment (some a) nowMs).lastAssessmentDate =
          some a.createdAtMs) ∧
    (∀ t : Int,
      (canGenerateNewAssessment (some ⟨t, 14⟩)
        (t + (13 * 86400000 + 23 * 3600000))).allowed = false ∧
      (canGenerateNewAssessment (some ⟨t, 14⟩)
        (t + (13 * 86400000 + 23 * 3600000))).daysRemaining = some 1 ∧
      (canGenerateNewAssessment (some ⟨t, 14⟩) (t + 14 * 86400000)).allowed = true) := by
  refine ⟨fun nowMs => rfl, fun a nowMs => ?_, fun a nowMs => ?_, fun t => ?_⟩
  · simp only [canGenerateNewAssessment]
    split_ifs with h
    · simpa using h
    · simpa using h
  · simp only [canGenerateNewAssessment]
    split_ifs with h
    · intro hfalse
      simp at hfalse
    · intro _
      exact ⟨rfl, rfl⟩
  · have e1 : t + (13 * 86400000 + 23 * 3600000) - t = (1206000000 : Int) := by ring
    have e2 : t + 14 * 86400000 - t = (1209600000 : Int) := by ring
    have h13 : Int.fdiv 1206000000 msPerDay = 13 := by decide
    have h14 : Int.fdiv 1209600000 msPerDay = 14 := by decide
    refine ⟨?_, ?_, ?_⟩ <;>
      simp only [canGenerateNewAssessment, e1, e2, h13, h14] <;>
      norm_num

/-- Witness for C1 at a concrete denied instance. -/
theorem cooldown_gate_spec_witness :
    (canGenerateNewAssessment (some ⟨0, 14⟩) 1206000000).daysRemaining = some 1 ∧
    (canGenerateNewAssessment (some ⟨0, 14⟩) 1206000000).lastAssessmentDate = some 0 :=
  cooldown_gate_spec.2.2.1 ⟨0, 14⟩ 1206000000 (by decide)

/-! ## Claim C2: one response per assessment -/

/-- C2: One response per assessment. Sequentially, a submission against
an assessment that already has a response is rejected with the conflict
error and leaves the stored response unchanged; concurrently, in every
interleaving of two submissions for the same assessment, exactly one
succeeds while the other observes a uniqueness rejection (the
precondition conflict, or the duplicate-key error of the storage-level
unique index on the assessment reference), and the store holds exactly
the winner. -/
theorem response_store_unique_spec :
    (∀ (questions : List Question) (answers : List Answer) (r : StoredResponse) (userId : Nat),
      submitAssessmentResponse true questions answers (some r) userId =
        { result := .error (.conflict "Assessment has already been completed"),
          store := some r }) ∧
    (∀ sched ∈ allInterleavings,
      (phaseOk (raceRun sched).p0 = true ∧ phaseRejected (raceRun sched).p1 = true ∧
        (raceRun sched).store = some 0) ∨
      (phaseRejected (raceRun sched).p0 = true ∧ phaseOk (raceRun sched).p1 = true ∧
        (raceRun sched).store = some 1)) := by
  constructor
  · intro questions answers r userId
    rfl
  · intro sched h
    simp only [allInterleavings, List.mem_cons, List.not_mem_nil, or_false] at h
    rcases h with rfl | rfl | rfl | rfl | rfl | rfl <;> decide

/-- Witness for C2 at the fully interleaved schedule (both precondition
checks before either save): submitter 0 wins, submitter 1 is rejected by
the unique index. -/
theorem response_store_unique_spec_witness :
    phaseOk (raceRun [0, 1, 0, 1]).p0 = true ∧
    phaseRejected (raceRun [0, 1, 0, 1]).p1 = true ∧
    (raceRun [0, 1, 0, 1]).store = some 0 := by
  have h := response_store_unique_spec.2 [0, 1, 0, 1] (by decide)
  rcases h with h | h
  · exact h
  · exact absurd h.2.2 (by decide)

/-! ## Claim C8: context truncation is the identity on short input -/

/-- C8: for every context string and budget, when the token count of the
context does not exceed the budget, optimizeContext returns the context
unchanged, not truncated, with the original token count. -/
theorem optimizeContext_identity_short :
    ∀ (count : String → Nat) (truncateTo : String → Nat → String)
      (context : String) (maxTokens : Nat),
      countTokensJS count context ≤ maxTokens →
      optimizeContext count truncateTo context maxTokens =
        { text := context, tokenCount := countTokensJS count context,
          wasTruncated := false, originalTokenCount := none } := by
  intro count truncateTo context maxTokens h
  by_cases hc : context = ""
  · subst hc
    rfl
  · have hc2 : (context == "") = false := by
      simpa using hc
    have hcount : countTokensJS count context = count context := by
      simp [countTokensJS, hc2]
    rw [hcount] at h
    simp [optimizeContext, countTokensJS, hc2, h]

/-- Witness for C8 with the string length as token counter. -/
theorem optimizeContext_identity_short_witness :
    optimizeContext String.length (fun s _ => s) "abc" 10 =
      { text := "abc", tokenCount := 3, wasTruncated := false, originalTokenCount := none } :=
  optimizeContext_identity_short String.length (fun s _ => s) "abc" 10 (by decide)

/-! ## Claim C4: inclusive numeric bounds -/

/-- C4: for numeric, rating_numeric and rating_slider questions with
both bounds set, a numeric answer passes the validator iff its value
lies in the closed interval between min and max; values equal to a bound
are accepted. -/
theorem numeric_bounds_inclusive :
    ∀ (question : Question) (answer : Answer) (lo hi n : Int),
      answer.questionId = question.id → answer.questionType = question.type →
      (question.type = "numeric" ∨ question.type = "rating_numeric" ∨
        question.type = "rating_slider") →
      question.min = some lo → question.max = some hi → answer.value = .num n →
      (validateAnswer answer question = none ↔ (lo ≤ n ∧ n ≤ hi)) := by
  intro question answer lo hi n hid hty hkind hmin hmax hval
  rcases hkind with hk | hk | hk <;>
    (simp [validateAnswer, validateNumericValue, validateSliderValue,
       hid, hty, hk, hval, hmin, hmax]
     split_ifs <;> simp <;> omega)

/-- Witness for C4: the lower boundary value is accepted. -/
theorem numeric_bounds_inclusive_witness :
    validateAnswer ⟨"q1", "numeric", .num 0⟩
      ⟨"q1", "numeric", "L", true, none, some 0, some 10, none, []⟩ = none :=
  (numeric_bounds_inclusive ⟨"q1", "numeric", "L", true, none, some 0, some 10, none, []⟩
    ⟨"q1", "numeric", .num 0⟩ 0 10 0 rfl rfl (Or.inl rfl) rfl rfl rfl).mpr (by omega)

/-! ## Claim C10: the validator never reads conditional-display rules -/

/-- Erasure of the conditions field, the only field of a question that
the validator is claimed to ignore. -/
def stripConditions (q : Question) : Question := { q with conditions := [] }

/-- Single-answer validation depends only on the question without its
conditions. -/
theorem validateAnswer_strip_eq (a : Answer) (q1 q2 : Question)
    (h : stripConditions q1 = stripConditions q2) :
    validateAnswer a q1 = validateAnswer a q2 := by
  obtain ⟨i1, t1, l1, r1, o1, m1, x1, s1, c1⟩ := q1
  obtain ⟨i2, t2, l2, r2, o2, m2, x2, s2, c2⟩ := q2
  simp only [stripConditions, Question.mk.injEq, and_true] at h
  obtain ⟨h1, h2, h3, h4, h5, h6, h7, h8⟩ := h
  subst h1; subst h2; subst h3; subst h4; subst h5; subst h6; subst h7; subst h8
  rfl

/-- The question found for an answer agrees between two condition-erased
equal question lists, up to conditions. -/
theorem find_strip_eq :
    ∀ (qs1 qs2 : List Question), qs1.map stripConditions = qs2.map stripConditions →
      ∀ (aid : String),
      Option.map stripConditions (qs1.find? (fun q => q.id == aid)) =
        Option.map stripConditions (qs2.find? (fun q => q.id == aid)) := by
  intro qs1
  induction qs1 with
  | nil =>
    intro qs2 h aid
    cases qs2 with
    | nil => rfl
    | cons q t => simp at h
  | cons q1 t1 ih =>
    intro qs2 h aid
    cases qs2 with
    | nil => simp at h
    | cons q2 t2 =>
      simp only [List.map_cons, List.cons.injEq] at h
      obtain ⟨hq, ht⟩ := h
      have hid0 := congrArg Question.id hq
      have hid : q1.id = q2.id := hid0
      cases hp : (q2.id == aid) with
      | true =>
        simp only [List.find?_cons, hid, hp, Option.map_some']
        exact congrArg some hq
      | false =>
        simp only [List.find?_cons, hid, hp]
        exact ih t2 ht aid

/-- Full validation depends only on questions without their conditions. -/
theorem validateAnswers_conditions_congr (answers : List Answer) (qs1 qs2 : List Question)
    (h : qs1.map stripConditions = qs2.map stripConditions) :
    validateAnswers answers qs1 = validateAnswers answers qs2 := by
  have key : ∀ (f : Question → Option String), (∀ q, f (stripConditions q) = f q) →
      qs1.filterMap f = qs2.filterMap f := by
    intro f hf
    have e : ∀ qs : List Question, (qs.map stripConditions).filterMap f = qs.filterMap f := by
      intro qs
      rw [List.filterMap_map]
      exact List.filterMap_congr (fun q _ => hf q)
    rw [← e qs1, ← e qs2, h]
  have hreq : qs1.filterMap (fun question =>
      if question.required && !((answers.map (fun a => a.questionId)).contains question.id) then
        some ("Required question not answered: " ++ question.id)
      else none) = qs2.filterMap (fun question =>
      if question.required && !((answers.map (fun a => a.questionId)).contains question.id) then
        some ("Required question not answered: " ++ question.id)
      else none) :=
    key _ (fun q => rfl)
  have hans : answers.filterMap (fun answer =>
      match qs1.find? (fun q => q.id == answer.questionId) with
      | none => some ("Answer provided for unknown question: " ++ answer.questionId)
      | some question => validateAnswer answer question) =
      answers.filterMap (fun answer =>
      match qs2.find? (fun q => q.id == answer.questionId) with
      | none => some ("Answer provided for unknown question: " ++ answer.questionId)
      | some question => validateAnswer answer question) := by
    apply List.filterMap_congr
    intro a _
    have hm := find_strip_eq qs1 qs2 h a.questionId
    cases hf1 : qs1.find? (fun q => q.id == a.questionId) with
    | none =>
      cases hf2 : qs2.find? (fun q => q.id == a.questionId) with
      | none => rfl
      | some q2 => rw [hf1, hf2] at hm; simp at hm
    | some q1 =>
      cases hf2 : qs2.find? (fun q => q.id == a.questionId) with
      | none => rw [hf1, hf2] at hm; simp at hm
      | some q2 =>
        rw [hf1, hf2] at hm
        simp only [Option.map_some', Option.some.injEq] at hm
        exact validateAnswer_strip_eq a q1 q2 hm
  simp only [validateAnswers]
  rw [hreq, hans]

/-- C10: the Answer Validator never evaluates conditional-display rules:
question lists that differ only in their conditions fields validate any
answer set identically; and a required question whose id is absent from
the answers is reported as not answered whatever its conditions are. -/
theorem validator_ignores_conditions :
    (∀ (answers : List Answer) (qs1 qs2 : List Question),
      qs1.map stripConditions = qs2.map stripConditions →
      validateAnswers answers qs1 = validateAnswers answers qs2) ∧
    (∀ (answers : List Answer) (questions : List Question) (q : Question),
      q ∈ questions → q.required = true →
      ((answers.map (fun a => a.questionId)).contains q.id) = false →
      ("Required question not answered: " ++ q.id) ∈ (validateAnswers answers questions).errors) := by
  constructor
  · exact validateAnswers_conditions_congr
  · intro answers questions q hmem hreq hcont
    simp only [validateAnswers]
    apply List.mem_append_left
    apply List.mem_filterMap.mpr
    refine ⟨q, hmem, ?_⟩
    rw [hreq, hcont]
    rfl

/-- Witness for C10: a required question hidden by a condition on an
unanswered controller is still reported, and erasing that condition does
not change the validation result. -/
theorem validator_ignores_conditions_witness :
    validateAnswers []
      [⟨"q1", "numeric", "L", true, none, some 0, some 10, none,
        [⟨"q0", "equals", .str "yes"⟩]⟩] =
      validateAnswers []
        [⟨"q1", "numeric", "L", true, none, some 0, some 10, none, []⟩] ∧
    ("Required question not answered: " ++ "q1") ∈
      (validateAnswers []
        [⟨"q1", "numeric", "L", true, none, some 0, some 10, none,
          [⟨"q0", "equals", .str "yes"⟩]⟩]).errors := by
  constructor
  · exact validator_ignores_conditions.1 [] _ _ rfl
  · exact validator_ignores_conditions.2 [] _
      ⟨"q1", "numeric", "L", true, none, some 0, some 10, none, [⟨"q0", "equals", .str "yes"⟩]⟩
      (List.mem_singleton.mpr rfl) rfl rfl

/-! ## Claim C5: option membership compared as text -/

/-- C5 counterexample: the claim as stated fails for a scalar number
answer. For a single_choice question whose option value is the number 2
and an answer whose value is the number 2, both compare as text to the
same string, so the claim demands acceptance; the validator rejects the
answer because its value is not a string. -/
theorem option_membership_counterexample :
    ¬ (validateAnswer ⟨"q1", "single_choice", .num 2⟩
        ⟨"q1", "single_choice", "L", true, some [⟨"o1", "Two", .num 2⟩],
          none, none, none, []⟩ = none ↔
       ∃ opt ∈ [(⟨"o1", "Two", JSValue.num 2⟩ : QuestionOption)],
         jsString opt.value = jsString (JSValue.num 2)) := by
  intro hiff
  have hmatch : ∃ opt ∈ [(⟨"o1", "Two", JSValue.num 2⟩ : QuestionOption)],
      jsString opt.value = jsString (JSValue.num 2) :=
    ⟨⟨"o1", "Two", JSValue.num 2⟩, List.mem_singleton.mpr rfl, rfl⟩
  have hrej := hiff.mpr hmatch
  have heval : validateAnswer ⟨"q1", "single_choice", .num 2⟩
      ⟨"q1", "single_choice", "L", true, some [⟨"o1", "Two", .num 2⟩],
        none, none, none, []⟩ =
      some ("Answer for " ++ "q1" ++ " must be a single option") := rfl
  rw [heval] at hrej
  exact Option.noConfusion hrej

/-- C5 (amended): for single_choice questions with options, a string
answer is accepted iff its text matches some option value compared as
text, and a non-string answer value is always rejected; for multi_choice
questions with options, a list answer is accepted iff the list is
non-empty whenever the question is required and every element matches
some option value compared as text, and a non-list answer value is
always rejected. -/
theorem option_membership_amended :
    (∀ (question : Question) (answer : Answer) (opts : List QuestionOption) (s : String),
      answer.questionId = question.id → answer.questionType = question.type →
      question.type = "single_choice" → question.options = some opts →
      answer.value = .str s →
      (validateAnswer answer question = none ↔
        ∃ opt ∈ opts, jsString opt.value = jsString (JSValue.str s))) ∧
    (∀ (question : Question) (answer : Answer),
      answer.questionId = question.id → answer.questionType = question.type →
      question.type = "single_choice" → (∀ s, answer.value ≠ .str s) →
      validateAnswer answer question ≠ none) ∧
    (∀ (question : Question) (answer : Answer) (opts : List QuestionOption)
        (vs : List JSValue),
      answer.questionId = question.id → answer.questionType = question.type →
      question.type = "multi_choice" → question.options = some opts →
      answer.value = .arr vs →
      (validateAnswer answer question = none ↔
        ((question.required = true → vs ≠ []) ∧
          ∀ v ∈ vs, ∃ opt ∈ opts, jsString opt.value = jsString v))) ∧
    (∀ (question : Question) (answer : Answer),
      answer.questionId = question.id → answer.questionType = question.type →
      question.type = "multi_choice" → (∀ vs, answer.value ≠ .arr vs) →
      validateAnswer answer question ≠ none) := by
  refine ⟨?_, ?_, ?_, ?_⟩
  · intro question answer opts s hid hty hk hopts hval
    simp [validateAnswer, validateSingleChoice, hid, hty, hk, hopts, hval]
  · intro question answer hid hty hk hnotstr
    cases hval : answer.value with
    | str s => exact absurd hval (hnotstr s)
    | num n => simp [validateAnswer, validateSingleChoice, hid, hty, hk, hval]
    | bool b => simp [validateAnswer, validateSingleChoice, hid, hty, hk, hval]
    | arr vs => simp [validateAnswer, validateSingleChoice, hid, hty, hk, hval]
  · intro question answer opts vs hid hty hk hopts hval
    simp [validateAnswer, validateMultiChoice, hid, hty, hk, hopts, hval]
    split_ifs with hempty hall
    · simp only [false_iff]
      simp only [Bool.and_eq_true, beq_iff_eq] at hempty
      obtain ⟨hrq, hlen⟩ := hempty
      have hnil : vs = [] := List.length_eq_zero.mp hlen
      rintro ⟨hne, _⟩
      exact (hne hrq) hnil
    · refine ⟨fun _ => ⟨?_, hall⟩, fun _ => rfl⟩
      intro hrq hnil
      apply hempty
      simp [hrq, hnil]
    · simp only [false_iff]
      rintro ⟨_, hmem⟩
      exact hall hmem
  · intro question answer hid hty hk hnotarr
    cases hval : answer.value with
    | arr vs => exact absurd hval (hnotarr vs)
    | num n => simp [validateAnswer, validateMultiChoice, hid, hty, hk, hval]
    | bool b => simp [validateAnswer, validateMultiChoice, hid, hty, hk, hval]
    | str s =>
      simp only [validateAnswer, validateMultiChoice, hid, hty, hk, hval]
      simp

/-- Witness for C5 (amended): the option value number 2 accepts the
string answer "2" on a single_choice question. -/
theorem option_membership_amended_witness :
    validateAnswer ⟨"q1", "single_choice", .str "2"⟩
      ⟨"q1", "single_choice", "L", true, some [⟨"o1", "Two", .num 2⟩],
        none, none, none, []⟩ = none :=
  (option_membership_amended.1
    ⟨"q1", "single_choice", "L", true, some [⟨"o1", "Two", .num 2⟩], none, none, none, []⟩
    ⟨"q1", "single_choice", .str "2"⟩ [⟨"o1", "Two", .num 2⟩] "2"
    rfl rfl rfl rfl rfl).mpr
    ⟨⟨"o1", "Two", .num 2⟩, List.mem_singleton.mpr rfl, by simp [jsString]; rfl⟩

/-! ## Claim C3: required coverage and error accumulation -/

/-- Helper: the head character of an appended string is the head of a
non-empty prefix. -/
theorem data_head_append (p s : String) (c : Char) (h : p.data.head? = some c) :
    (p ++ s).data.head? = some c := by
  rw [String.data_append]
  cases hd : p.data with
  | nil => rw [hd] at h; exact Option.noConfusion h
  | cons x xs =>
    rw [hd] at h
    simp only [List.head?_cons, Option.some.injEq] at h
    subst h
    simp

/-- Helper: appending to a fixed prefix is injective. -/
theorem string_append_cancel (p a b : String) : p ++ a = p ++ b ↔ a = b := by
  constructor
  · intro h
    apply String.ext
    have hd := congrArg String.data h
    rw [String.data_append, String.data_append] at hd
    exact List.append_cancel_left hd
  · intro h
    rw [h]

/-- Helper: no error of validateLongText is a required-question message. -/
theorem validateLongText_ne_required (a : Answer) (q : Question) (qid : String) :
    validateLongText a q ≠ some ("Required question not answered: " ++ qid) := by
  intro h
  have hreq : ("Required question not answered: " ++ qid).data.head? = some 'R' :=
    data_head_append _ _ _ (by decide)
  simp only [validateLongText] at h
  repeat' split at h
  all_goals first
    | exact Option.noConfusion h
    | (injection h with h
       have hh := congrArg (fun s => List.head? s.data) h
       simp only at hh
       rw [hreq] at hh
       first
         | exact absurd hh (by decide)
         | (rw [data_head_append _ _ 'A' (by decide)] at hh; exact absurd hh (by decide))
         | (rw [data_head_append _ _ 'I' (by decide)] at hh; exact absurd hh (by decide))
         | (rw [data_head_append _ _ 'S' (by decide)] at hh; exact absurd hh (by decide))
         | (rw [data_head_append _ _ 'U' (by decide)] at hh; exact absurd hh (by decide))
         | (rw [data_head_append _ _ 'A' (data_head_append _ _ 'A' (by decide))] at hh
            exact absurd hh (by decide))
         | (rw [data_head_append _ _ 'S' (data_head_append _ _ 'S' (by decide))] at hh
            exact absurd hh (by decide))
         | (rw [data_head_append _ _ 'A'
              (data_head_append _ _ 'A' (data_head_append _ _ 'A' (by decide)))] at hh
            exact absurd hh (by decide))
         | (rw [data_head_append _ _ 'S'
              (data_head_append _ _ 'S' (data_head_append _ _ 'S' (by decide)))] at hh
            exact absurd hh (by decide)))

/-- Helper: no error of validateSingleChoice is a required-question message. -/
theorem validateSingleChoice_ne_required (a : Answer) (q : Question) (qid : String) :
    validateSingleChoice a q ≠ some ("Required question not answered: " ++ qid) := by
  intro h
  have hreq : ("Required question not answered: " ++ qid).data.head? = some 'R' :=
    data_head_append _ _ _ (by decide)
  simp only [validateSingleChoice] at h
  repeat' split at h
  all_goals first
    | exact Option.noConfusion h
    | (injection h with h
       have hh := congrArg (fun s => List.head? s.data) h
       simp only at hh
       rw [hreq] at hh
       first
         | exact absurd hh (by decide)
         | (rw [data_head_append _ _ 'A' (by decide)] at hh; exact absurd hh (by decide))
         | (rw [data_head_append _ _ 'I' (by decide)] at hh; exact absurd hh (by decide))
         | (rw [data_head_append _ _ 'S' (by decide)] at hh; exact absurd hh (by decide))
         | (rw [data_head_append _ _ 'U' (by decide)] at hh; exact absurd hh (by decide))
         | (rw [data_head_append _ _ 'A' (data_head_append _ _ 'A' (by decide))] at hh
            exact absurd hh (by decide))
         | (rw [data_head_append _ _ 'S' (data_head_append _ _ 'S' (by decide))] at hh
            exact absurd hh (by decide))
         | (rw [data_head_append _ _ 'A'
              (data_head_append _ _ 'A' (data_head_append _ _ 'A' (by decide)))] at hh
            exact absurd hh (by decide))
         | (rw [data_head_append _ _ 'S'
              (data_head_append _ _ 'S' (data_head_append _ _ 'S' (by decide)))] at hh
            exact absurd hh (by decide)))

/-- Helper: no error of validateMultiChoice is a required-question message. -/
theorem validateMultiChoice_ne_required (a : Answer) (q : Question) (qid : String) :
    validateMultiChoice a q ≠ some ("Required question not answered: " ++ qid) := by
  intro h
  have hreq : ("Required question not answered: " ++ qid).data.head? = some 'R' :=
    data_head_append _ _ _ (by decide)
  simp only [validateMultiChoice] at h
  repeat' split at h
  all_goals first
    | exact Option.noConfusion h
    | (injection h with h
       have hh := congrArg (fun s => List.head? s.data) h
       simp only at hh
       rw [hreq] at hh
       first
         | exact absurd hh (by decide)
         | (rw [data_head_append _ _ 'A' (by decide)] at hh; exact absurd hh (by decide))
         | (rw [data_head_append _ _ 'I' (by decide)] at hh; exact absurd hh (by decide))
         | (rw [data_head_append _ _ 'S' (by decide)] at hh; exact absurd hh (by decide))
         | (rw [data_head_append _ _ 'U' (by decide)] at hh; exact absurd hh (by decide))
         | (rw [data_head_append _ _ 'A' (data_head_append _ _ 'A' (by decide))] at hh
            exact absurd hh (by decide))
         | (rw [data_head_append _ _ 'S' (data_head_append _ _ 'S' (by decide))] at hh
            exact absurd hh (by decide))
         | (rw [data_head_append _ _ 'A'
              (data_head_append _ _ 'A' (data_head_append _ _ 'A' (by decide)))] at hh
            exact absurd hh (by decide))
         | (rw [data_head_append _ _ 'S'
              (data_head_append _ _ 'S' (data_head_append _ _ 'S' (by decide)))] at hh
            exact absurd hh (by decide)))

/-- Helper: no error of validateNumericValue is a required-question message. -/
theorem validateNumericValue_ne_required (a : Answer) (q : Question) (qid : String) :
    validateNumericValue a q ≠ some ("Required question not answered: " ++ qid) := by
  intro h
  have hreq : ("Required question not answered: " ++ qid).data.head? = some 'R' :=
    data_head_append _ _ _ (by decide)
  simp only [validateNumericValue] at h
  repeat' split at h
  all_goals first
    | exact Option.noConfusion h
    | (injection h with h
       have hh := congrArg (fun s => List.head? s.data) h
       simp only at hh
       rw [hreq] at hh
       first
         | exact absurd hh (by decide)
         | (rw [data_head_append _ _ 'A' (by decide)] at hh; exact absurd hh (by decide))
         | (rw [data_head_append _ _ 'I' (by decide)] at hh; exact absurd hh (by decide))
         | (rw [data_head_append _ _ 'S' (by decide)] at hh; exact absurd hh (by decide))
         | (rw [data_head_append _ _ 'U' (by decide)] at hh; exact absurd hh (by decide))
         | (rw [data_head_append _ _ 'A' (data_head_append _ _ 'A' (by decide))] at hh
            exact absurd hh (by decide))
         | (rw [data_head_append _ _ 'S' (data_head_append _ _ 'S' (by decide))] at hh
            exact absurd hh (by decide))
         | (rw [data_head_append _ _ 'A'
              (data_head_append _ _ 'A' (data_head_append _ _ 'A' (by decide)))] at hh
            exact absurd hh (by decide))
         | (rw [data_head_append _ _ 'S'
              (data_head_append _ _ 'S' (data_head_append _ _ 'S' (by decide)))] at hh
            exact absurd hh (by decide)))

/-- Helper: no error of validateRatingChoice is a required-question message. -/
theorem validateRatingChoice_ne_required (a : Answer) (q : Question) (qid : String) :
    validateRatingChoice a q ≠ some ("Required question not answered: " ++ qid) := by
  intro h
  have hreq : ("Required question not answered: " ++ qid).data.head? = some 'R' :=
    data_head_append _ _ _ (by decide)
  simp only [validateRatingChoice] at h
  repeat' split at h
  all_goals first
    | exact Option.noConfusion h
    | (injection h with h
       have hh := congrArg (fun s => List.head? s.data) h
       simp only at hh
       rw [hreq] at hh
       first
         | exact absurd hh (by decide)
         | (rw [data_head_append _ _ 'A' (by decide)] at hh; exact absurd hh (by decide))
         | (rw [data_head_append _ _ 'I' (by decide)] at hh; exact absurd hh (by decide))
         | (rw [data_head_append _ _ 'S' (by decide)] at hh; exact absurd hh (by decide))
         | (rw [data_head_append _ _ 'U' (by decide)] at hh; exact absurd hh (by decide))
         | (rw [data_head_append _ _ 'A' (data_head_append _ _ 'A' (by decide))] at hh
            exact absurd hh (by decide))
         | (rw [data_head_append _ _ 'S' (data_head_append _ _ 'S' (by decide))] at hh
            exact absurd hh (by decide))
         | (rw [data_head_append _ _ 'A'
              (data_head_append _ _ 'A' (data_head_append _ _ 'A' (by decide)))] at hh
            exact absurd hh (by decide))
         | (rw [data_head_append _ _ 'S'
              (data_head_append _ _ 'S' (data_head_append _ _ 'S' (by decide)))] at hh
            exact absurd hh (by decide)))

/-- Helper: no error of validateSliderValue is a required-question message. -/
theorem validateSliderValue_ne_required (a : Answer) (q : Question) (qid : String) :
    validateSliderValue a q ≠ some ("Required question not answered: " ++ qid) := by
  intro h
  have hreq : ("Required question not answered: " ++ qid).data.head? = some 'R' :=
    data_head_append _ _ _ (by decide)
  simp only [validateSliderValue] at h
  repeat' split at h
  all_goals first
    | exact Option.noConfusion h
    | (injection h with h
       have hh := congrArg (fun s => List.head? s.data) h
       simp only at hh
       rw [hreq] at hh
       first
         | exact absurd hh (by decide)
         | (rw [data_head_append _ _ 'A' (by decide)] at hh; exact absurd hh (by decide))
         | (rw [data_head_append _ _ 'I' (by decide)] at hh; exact absurd hh (by decide))
         | (rw [data_head_append _ _ 'S' (by decide)] at hh; exact absurd hh (by decide))
         | (rw [data_head_append _ _ 'U' (by decide)] at hh; exact absurd hh (by decide))
         | (rw [data_head_append _ _ 'A' (data_head_append _ _ 'A' (by decide))] at hh
            exact absurd hh (by decide))
         | (rw [data_head_append _ _ 'S' (data_head_append _ _ 'S' (by decide))] at hh
            exact absurd hh (by decide))
         | (rw [data_head_append _ _ 'A'
              (data_head_append _ _ 'A' (data_head_append _ _ 'A' (by decide)))] at hh
            exact absurd hh (by decide))
         | (rw [data_head_append _ _ 'S'
              (data_head_append _ _ 'S' (data_head_append _ _ 'S' (by decide)))] at hh
            exact absurd hh (by decide)))

/-- Helper: no error produced by validateAnswer is a required-question
message; every message it produces starts with A, I, S or U while the
required message starts with R. -/
theorem validateAnswer_ne_required (a : Answer) (q : Question) (qid : String) :
    validateAnswer a q ≠ some ("Required question not answered: " ++ qid) := by
  intro h
  have hreq : ("Required question not answered: " ++ qid).data.head? = some 'R' :=
    data_head_append _ _ _ (by decide)
  simp only [validateAnswer] at h
  repeat' split at h
  all_goals first
    | exact Option.noConfusion h
    | exact validateLongText_ne_required _ _ _ h
    | exact validateSingleChoice_ne_required _ _ _ h
    | exact validateMultiChoice_ne_required _ _ _ h
    | exact validateNumericValue_ne_required _ _ _ h
    | exact validateRatingChoice_ne_required _ _ _ h
    | exact validateSliderValue_ne_required _ _ _ h
    | (injection h with h
       have hh := congrArg (fun s => List.head? s.data) h
       simp only at hh
       rw [hreq] at hh
       first
         | exact absurd hh (by decide)
         | (rw [data_head_append _ _ 'A' (by decide)] at hh; exact absurd hh (by decide))
         | (rw [data_head_append _ _ 'U' (by decide)] at hh; exact absurd hh (by decide)))

/-- Helper: the count of one required-question message among the
required-question errors equals the number of required, unanswered
questions bearing that id. -/
theorem required_count (answers : List Answer) (questions : List Question) (qid : String) :
    (questions.filterMap (fun question =>
      if question.required && !((answers.map (fun a => a.questionId)).contains question.id) then
        some ("Required question not answered: " ++ question.id)
      else none)).count ("Required question not answered: " ++ qid) =
    questions.countP (fun q =>
      q.required && !((answers.map (fun a => a.questionId)).contains q.id) && (q.id == qid)) := by
  induction questions with
  | nil => rfl
  | cons q rest ih =>
    simp only [List.filterMap_cons, List.countP_cons]
    by_cases hq : (q.required && !((answers.map (fun a => a.questionId)).contains q.id)) = true
    · rw [if_pos hq, hq]
      simp only [Bool.true_and, List.count_cons, ih]
      by_cases hid : q.id = qid
      · subst hid
        simp
      · have hne : ¬ (("Required question not answered: " ++ q.id) =
            ("Required question not answered: " ++ qid)) := by
          intro hcon
          exact hid ((string_append_cancel _ _ _).mp hcon)
        simp [hne, hid]
    · have hqf : (q.required && !((answers.map (fun a => a.questionId)).contains q.id)) = false := by
        simpa using hq
      rw [if_neg hq, hqf]
      rw [ih]
      simp

/-- Helper: the required-question message never occurs among the
per-answer errors. -/
theorem answer_errors_not_required (answers : List Answer) (questions : List Question)
    (qid : String) :
    (answers.filterMap (fun answer =>
      match questions.find? (fun q => q.id == answer.questionId) with
      | none => some ("Answer provided for unknown question: " ++ answer.questionId)
      | some question => validateAnswer answer question)).count
      ("Required question not answered: " ++ qid) = 0 := by
  rw [List.count_eq_zero]
  intro hmem
  obtain ⟨a, _, hfa⟩ := List.mem_filterMap.mp hmem
  cases hfind : questions.find? (fun q => q.id == a.questionId) with
  | none =>
    rw [hfind] at hfa
    simp only [Option.some.injEq] at hfa
    have h1 : ("Answer provided for unknown question: " ++ a.questionId).data.head? = some 'A' :=
      data_head_append _ _ _ (by decide)
    have h2 : ("Required question not answered: " ++ qid).data.head? = some 'R' :=
      data_head_append _ _ _ (by decide)
    rw [hfa, h2] at h1
    simp at h1
  | some q =>
    rw [hfind] at hfa
    exact validateAnswer_ne_required a q qid hfa

/-- C3: validateAnswers emits exactly one required-question error, naming
the question id, for each required question whose id is absent from the
answers, whatever the other answers contain; errors from the question
pass and from every answer accumulate into one list; and the result is
valid iff that list is empty. -/
theorem required_coverage_accumulation :
    ∀ (answers : List Answer) (questions : List Question) (qid : String),
      ((validateAnswers answers questions).errors =
        questions.filterMap (fun question =>
          if question.required &&
              !((answers.map (fun a => a.questionId)).contains question.id) then
            some ("Required question not answered: " ++ question.id)
          else none) ++
        answers.filterMap (fun answer =>
          match questions.find? (fun q => q.id == answer.questionId) with
          | none => some ("Answer provided for unknown question: " ++ answer.questionId)
          | some question => validateAnswer answer question)) ∧
      ((validateAnswers answers questions).errors.count
          ("Required question not answered: " ++ qid) =
        questions.countP (fun q =>
          q.required && !((answers.map (fun a => a.questionId)).contains q.id) &&
            (q.id == qid))) ∧
      ((validateAnswers answers questions).valid = true ↔
        (validateAnswers answers questions).errors = []) := by
  intro answers questions qid
  refine ⟨rfl, ?_, ?_⟩
  · have herr : (validateAnswers answers questions).errors =
        questions.filterMap (fun question =>
          if question.required &&
              !((answers.map (fun a => a.questionId)).contains question.id) then
            some ("Required question not answered: " ++ question.id)
          else none) ++
        answers.filterMap (fun answer =>
          match questions.find? (fun q => q.id == answer.questionId) with
          | none => some ("Answer provided for unknown question: " ++ answer.questionId)
          | some question => validateAnswer answer question) := rfl
    rw [herr, List.count_append, required_count, answer_errors_not_required]
    simp
  · have hv : (validateAnswers answers questions).valid =
        (validateAnswers answers questions).errors.isEmpty := rfl
    rw [hv]
    cases (validateAnswers answers questions).errors with
    | nil => simp
    | cons e rest => simp

/-! ## Claim C6: LLM output structural validation -/

/-- Helper: the structural validation succeeds exactly on a JSON value
with an enum severity string, a non-negative numeric cooldown, and a
non-empty questions array whose entries all have truthy id, type and
label. -/
theorem validateLLMResponse_ok_iff (data : Json) :
    validateLLMResponse data = .ok () ↔
      ((∃ s, getField data "severity" = some (.str s) ∧
          (s = "low" ∨ s = "moderate" ∨ s = "high")) ∧
       (∃ q : Rat, getField data "min_days_before_next_assessment" = some (.num q) ∧ 0 ≤ q) ∧
       (∃ qs : List Json, getField data "questions" = some (.arr qs) ∧ qs ≠ [] ∧
         ∀ question ∈ qs, jsFieldTruthy question "id" = true ∧
           jsFieldTruthy question "type" = true ∧ jsFieldTruthy question "label" = true)) := by
  simp only [validateLLMResponse]
  split_ifs with h1 h2
  · apply iff_of_false (by simp)
    rintro ⟨⟨s, hs, hmem⟩, -, -⟩
    rw [hs] at h1
    rcases hmem with rfl | rfl | rfl <;> simp [jsTruthy] at h1
  · apply iff_of_false (by simp)
    rintro ⟨-, ⟨q, hq, hge⟩, -⟩
    rw [hq] at h2
    simp at h2
    exact absurd h2 (not_lt.mpr hge)
  · have hsev : ∃ s, getField data "severity" = some (.str s) ∧
        (s = "low" ∨ s = "moderate" ∨ s = "high") := by
      cases hg : getField data "severity" with
      | none => rw [hg] at h1; simp at h1
      | some v =>
        cases v with
        | str s =>
          rw [hg] at h1
          simp [jsTruthy] at h1
          refine ⟨s, rfl, ?_⟩
          tauto
        | num q => rw [hg] at h1; simp at h1
        | bool b => rw [hg] at h1; simp at h1
        | null => rw [hg] at h1; simp at h1
        | arr xs => rw [hg] at h1; simp at h1
        | obj fs => rw [hg] at h1; simp at h1
    have hmin : ∃ q : Rat, getField data "min_days_before_next_assessment" = some (.num q) ∧
        0 ≤ q := by
      cases hg : getField data "min_days_before_next_assessment" with
      | none => rw [hg] at h2; simp at h2
      | some v =>
        cases v with
        | num q =>
          rw [hg] at h2
          simp at h2
          exact ⟨q, rfl, h2⟩
        | str t => rw [hg] at h2; simp at h2
        | bool b => rw [hg] at h2; simp at h2
        | null => rw [hg] at h2; simp at h2
        | arr xs => rw [hg] at h2; simp at h2
        | obj fs => rw [hg] at h2; simp at h2
    cases hg : getField data "questions" with
    | none =>
      apply iff_of_false (by simp)
      rintro ⟨-, -, qs2, hqs2, -, -⟩
      simp at hqs2
    | some v =>
      cases v with
      | arr qs =>
        dsimp only
        split_ifs with hlen hall
        · apply iff_of_false (by simp)
          rintro ⟨-, -, qs2, hqs2, hne, -⟩
          simp only [Option.some.injEq, Json.arr.injEq] at hqs2
          subst hqs2
          simp only [beq_iff_eq, List.length_eq_zero] at hlen
          exact hne hlen
        · apply iff_of_true rfl
          refine ⟨hsev, hmin, qs, rfl, ?_, ?_⟩
          · intro hnil
            subst hnil
            simp at hlen
          · intro question hqmem
            have hq := List.all_eq_true.mp hall question hqmem
            simp only [Bool.and_eq_true] at hq
            exact ⟨hq.1.1, hq.1.2, hq.2⟩
        · apply iff_of_false (by simp)
          rintro ⟨-, -, qs2, hqs2, -, hprop⟩
          simp only [Option.some.injEq, Json.arr.injEq] at hqs2
          subst hqs2
          apply hall
          apply List.all_eq_true.mpr
          intro question hqmem
          obtain ⟨hi, ht, hl⟩ := hprop question hqmem
          simp [hi, ht, hl]
      | str t =>
        apply iff_of_false (by simp)
        rintro ⟨-, -, qs2, hqs2, -, -⟩
        simp at hqs2
      | num q =>
        apply iff_of_false (by simp)
        rintro ⟨-, -, qs2, hqs2, -, -⟩
        simp at hqs2
      | bool b =>
        apply iff_of_false (by simp)
        rintro ⟨-, -, qs2, hqs2, -, -⟩
        simp at hqs2
      | null =>
        apply iff_of_false (by simp)
        rintro ⟨-, -, qs2, hqs2, -, -⟩
        simp at hqs2
      | obj fs =>
        apply iff_of_false (by simp)
        rintro ⟨-, -, qs2, hqs2, -, -⟩
        simp at hqs2

/-- C6 (amended): generation succeeds iff the raw LLM output, after
the markdown code fence stripping, parses as one JSON value carrying a
severity in the enum, a numeric non-negative
min_days_before_next_assessment (the source checks number-ness and
non-negativity, not integrality), and a non-empty questions array in
which every entry has truthy id, type and label; any violation makes the
whole attempt an error and no assessment value is produced. -/
theorem llm_structural_validation_amended :
    ∀ (parseJson : String → Option Json) (content : String),
      (∃ r, persistFromLLM parseJson content = .ok r) ↔
      (∃ data, parseJson (cleanLLMContent content) = some data ∧
        (∃ s, getField data "severity" = some (.str s) ∧
          (s = "low" ∨ s = "moderate" ∨ s = "high")) ∧
        (∃ q : Rat, getField data "min_days_before_next_assessment" = some (.num q) ∧
          0 ≤ q) ∧
        (∃ qs : List Json, getField data "questions" = some (.arr qs) ∧ qs ≠ [] ∧
          ∀ question ∈ qs, jsFieldTruthy question "id" = true ∧
            jsFieldTruthy question "type" = true ∧
            jsFieldTruthy question "label" = true)) := by
  intro parseJson content
  simp only [persistFromLLM, generateStructuredOutput]
  cases hp : parseJson (cleanLLMContent content) with
  | none =>
    dsimp only
    constructor
    · rintro ⟨r, hr⟩
      exact Except.noConfusion hr
    · rintro ⟨data, hdata, _⟩
      exact Option.noConfusion hdata
  | some data =>
    dsimp only
    cases hv : validateLLMResponse data with
    | error e =>
      dsimp only
      constructor
      · rintro ⟨r, hr⟩
        exact Except.noConfusion hr
      · rintro ⟨data2, hdata2, hrest⟩
        simp only [Option.some.injEq] at hdata2
        subst hdata2
        have := (validateLLMResponse_ok_iff data).mpr hrest
        rw [hv] at this
        exact Except.noConfusion this
    | ok u =>
      cases u
      dsimp only
      constructor
      · intro _
        refine ⟨data, rfl, ?_⟩
        exact (validateLLMResponse_ok_iff data).mp hv
      · intro _
        exact ⟨_, rfl⟩

/-- Raw LLM output for the C6 counterexample: syntactically valid JSON
whose min_days_before_next_assessment is 2.5, not an integer. -/
def fractionalCooldownContent : String :=
  "\x7b\"severity\":\"low\",\"min_days_before_next_assessment\":2.5,\"questions\":[\x7b\"id\":\"q1\",\"type\":\"numeric\",\"label\":\"Pain\"\x7d]\x7d"

/-- The rational 2.5, given in normal form so that it computes. -/
def twoPointFive : Rat := ⟨5, 2, by decide, by decide⟩

/-- The JSON value that JSON.parse returns on the counterexample
content. -/
def fractionalCooldownJson : Json :=
  .obj [("severity", .str "low"),
        ("min_days_before_next_assessment", .num twoPointFive),
        ("questions", .arr [.obj [("id", .str "q1"), ("type", .str "numeric"),
          ("label", .str "Pain")]])]

/-- Modelled JSON.parse at the single counterexample input: the real
parser maps exactly that string to that object. -/
def fractionalCooldownParse : String → Option Json :=
  fun s => if s = fractionalCooldownContent then some fractionalCooldownJson else none

/-- C6 counterexample: the claim as stated requires a non-negative
integer cooldown for success, but generation succeeds on an output whose
min_days_before_next_assessment is the non-integer 2.5 — the source only
checks that the field is a number and non-negative. -/
theorem llm_structural_validation_counterexample :
    (∃ r, persistFromLLM fractionalCooldownParse fractionalCooldownContent = .ok r) ∧
    getField fractionalCooldownJson "min_days_before_next_assessment" =
      some (.num twoPointFive) ∧
    twoPointFive.num = 5 ∧ twoPointFive.den = 2 ∧
    (twoPointFive.den ≠ 1) := by
  have hclean : cleanLLMContent fractionalCooldownContent = fractionalCooldownContent := by
    decide
  have hval : validateLLMResponse fractionalCooldownJson = .ok () := by
    decide
  refine ⟨⟨?_, ?_⟩, rfl, by decide, by decide, by decide⟩
  · exact { severity := (getField fractionalCooldownJson "severity").getD .null,
            minDaysBeforeNextAssessment :=
              (getField fractionalCooldownJson "min_days_before_next_assessment").getD .null,
            questions := (getField fractionalCooldownJson "questions").getD .null }
  · simp only [persistFromLLM, generateStructuredOutput, hclean, fractionalCooldownParse,
      if_pos, hval]

/-! ## Claim C7: retry classification of the LLM call -/

/-- Helper: one retried step of the loop: a transient outcome at an
attempt that is not the last one recurses after the backoff sleep. -/
theorem runGenerateCompletion_step_transient (f : Nat → AttemptOutcome) (n j : Nat)
    (delays : List Nat) (ht : isTransient (f j) = true) (hj : j < n - 1) :
    runGenerateCompletion f n j delays =
      runGenerateCompletion f n (j + 1) (delays ++ [backoffMs j]) := by
  have hjn : j < n := by omega
  rw [runGenerateCompletion]
  rw [dif_pos hjn]
  cases hf : f j with
  | reply c r =>
    rw [hf] at ht
    simp [isTransient] at ht
  | apiError st code msg =>
    rw [hf] at ht
    cases st with
    | none => simp [isTransient] at ht
    | some sv =>
      simp only [isTransient, Bool.or_eq_true, beq_iff_eq] at ht
      rcases ht with ((h | h) | h) | h <;> subst h <;>
        simp [handleAttemptError, hj]

/-- Helper: a run whose first outcomes are all transient reaches the
later attempt having slept the exponential backoff schedule. -/
theorem runGenerateCompletion_transient_many (f : Nat → AttemptOutcome) (n : Nat) :
    ∀ (k j : Nat) (delays : List Nat),
      (∀ i, j ≤ i → i < j + k → isTransient (f i) = true) → j + k ≤ n - 1 →
      runGenerateCompletion f n j delays =
        runGenerateCompletion f n (j + k) (delays ++ (List.range' j k).map backoffMs) := by
  intro k
  induction k with
  | zero =>
    intro j delays _ _
    simp
  | succ k ih =>
    intro j delays hall hbound
    have h1 : isTransient (f j) = true := hall j le_rfl (by omega)
    rw [runGenerateCompletion_step_transient f n j delays h1 (by omega)]
    rw [ih (j + 1) (delays ++ [backoffMs j])
      (fun i hi1 hi2 => hall i (by omega) (by omega)) (by omega)]
    rw [List.range'_succ]
    simp only [List.map_cons, List.append_assoc, List.singleton_append]
    congr 1
    omega

/-- C7 (amended): transient failures (HTTP 429, 503, 500, 502) are
retried with the exponential backoff schedule and a later good reply
succeeds; an all-transient run stops after exactly maxRetries attempts
with an error; authentication (401) and content-length failures are
fatal on the spot; and a refusal or empty-content reply is also fatal on
the spot — it is never retried, unlike transient errors. -/
theorem retry_classification_amended :
    (∀ (f : Nat → AttemptOutcome) (maxRetries k : Nat) (content : String),
      (∀ i, i < k → isTransient (f i) = true) → k < maxRetries →
      f k = .reply content none → jsTrim content ≠ "" →
      generateCompletion f maxRetries =
        { result := .ok content, attemptsMade := k + 1,
          delays := (List.range k).map backoffMs }) ∧
    (∀ (f : Nat → AttemptOutcome) (maxRetries : Nat), 1 ≤ maxRetries →
      (∀ i, i < maxRetries → isTransient (f i) = true) →
      (generateCompletion f maxRetries).attemptsMade = maxRetries ∧
      ∃ e, (generateCompletion f maxRetries).result = .error e) ∧
    (∀ (f : Nat → AttemptOutcome) (maxRetries : Nat) (code : Option String) (msg : String),
      1 ≤ maxRetries → f 0 = .apiError (some 401) code msg →
      generateCompletion f maxRetries =
        { result := .error "Invalid OpenAI API key", attemptsMade := 1, delays := [] }) ∧
    (∀ (f : Nat → AttemptOutcome) (maxRetries : Nat) (msg : String),
      1 ≤ maxRetries → f 0 = .apiError (some 400) (some "context_length_exceeded") msg →
      generateCompletion f maxRetries =
        { result := .error "Context length exceeded. Please reduce the input size.",
          attemptsMade := 1, delays := [] }) ∧
    (∀ (f : Nat → AttemptOutcome) (maxRetries : Nat) (content r : String),
      1 ≤ maxRetries → f 0 = .reply content (some r) →
      generateCompletion f maxRetries =
        { result := .error ("LLM API error: OpenAI refused: " ++ r),
          attemptsMade := 1, delays := [] }) ∧
    (∀ (f : Nat → AttemptOutcome) (maxRetries : Nat) (content : String),
      1 ≤ maxRetries → f 0 = .reply content none → jsTrim content = "" →
      generateCompletion f maxRetries =
        { result := .error "LLM API error: OpenAI returned empty content",
          attemptsMade := 1, delays := [] }) := by
  refine ⟨?_, ?_, ?_, ?_, ?_, ?_⟩
  · intro f maxRetries k content hall hk hfk hne
    rw [generateCompletion]
    rw [runGenerateCompletion_transient_many f maxRetries k 0 []
      (fun i hi1 hi2 => hall i (by omega)) (by omega)]
    rw [runGenerateCompletion]
    rw [dif_pos (by omega : 0 + k < maxRetries)]
    have hk0 : 0 + k = k := by omega
    rw [hk0, hfk]
    have hne2 : (jsTrim content == "") = false := by
      simpa using hne
    simp only [hne2, Bool.false_eq_true, if_false]
    simp [List.range_eq_range']
  · intro f maxRetries h1 hall
    rw [generateCompletion]
    rw [runGenerateCompletion_transient_many f maxRetries (maxRetries - 1) 0 []
      (fun i hi1 hi2 => hall i (by omega)) (by omega)]
    rw [runGenerateCompletion]
    rw [dif_pos (by omega : 0 + (maxRetries - 1) < maxRetries)]
    have hlast : isTransient (f (0 + (maxRetries - 1))) = true := hall _ (by omega)
    cases hf : f (0 + (maxRetries - 1)) with
    | reply c r =>
      rw [hf] at hlast
      simp [isTransient] at hlast
    | apiError st code msg =>
      rw [hf] at hlast
      cases st with
      | none => simp [isTransient] at hlast
      | some sv =>
        simp only [isTransient, Bool.or_eq_true, beq_iff_eq] at hlast
        have hnolast : ¬ (0 + (maxRetries - 1) < maxRetries - 1) := by omega
        rcases hlast with ((h | h) | h) | h <;> subst h <;>
          simp [handleAttemptError, hnolast] <;> omega
  · intro f maxRetries code msg h1 hf0
    rw [generateCompletion, runGenerateCompletion, dif_pos (by omega : 0 < maxRetries), hf0]
    simp [handleAttemptError]
  · intro f maxRetries msg h1 hf0
    rw [generateCompletion, runGenerateCompletion, dif_pos (by omega : 0 < maxRetries), hf0]
    simp [handleAttemptError]
  · intro f maxRetries content r h1 hf0
    rw [generateCompletion, runGenerateCompletion, dif_pos (by omega : 0 < maxRetries), hf0]
    simp [handleAttemptError]
    rw [← String.append_assoc]
    rfl
  · intro f maxRetries content h1 hf0 htrim
    rw [generateCompletion, runGenerateCompletion, dif_pos (by omega : 0 < maxRetries), hf0]
    have htrim2 : (jsTrim content == "") = true := by
      simpa using htrim
    simp [htrim2, handleAttemptError]

/-- Attempt outcomes for the C7 counterexample: empty content on the
first attempt, a good reply on every later attempt. -/
def emptyThenGood : Nat → AttemptOutcome :=
  fun i => if i = 0 then .reply "" none else .reply "ok" none

/-- Contrasting outcomes: a rate limit on the first attempt, a good
reply afterwards. -/
def rateLimitedThenGood : Nat → AttemptOutcome :=
  fun i => if i = 0 then .apiError (some 429) none "Rate limit reached" else .reply "ok" none

/-- C7 counterexample: the claim says an empty-content reply is still
subject to the same retry policy as transient errors when attempts
remain. In the source the empty-content error carries no status, falls
to the no-retry branch of the catch block, and the run stops after one
attempt even though two attempts remain — while the same schedule with a
429 first attempt is retried and succeeds on attempt two. -/
theorem retry_classification_counterexample :
    generateCompletion emptyThenGood 3 =
      { result := .error "LLM API error: OpenAI returned empty content",
        attemptsMade := 1, delays := [] } ∧
    generateCompletion rateLimitedThenGood 3 =
      { result := .ok "ok", attemptsMade := 2, delays := [1000] } := by
  constructor
  · rw [generateCompletion, runGenerateCompletion, dif_pos (by omega : (0 : Nat) < 3)]
    simp [emptyThenGood, jsTrim, handleAttemptError]
  · rw [generateCompletion,
      runGenerateCompletion_step_transient rateLimitedThenGood 3 0 [] (by decide) (by omega),
      runGenerateCompletion, dif_pos (by omega : (1 : Nat) < 3)]
    simp [rateLimitedThenGood, jsTrim, backoffMs]

/-- Outcomes for the C7 witness: a server outage on the first attempt,
a good reply on the second. -/
def serverErrorThenGood : Nat → AttemptOutcome :=
  fun i => if i = 0 then .apiError (some 503) none "Service unavailable" else .reply "done" none

/-- Witness for C7 (amended): the transient 503 is retried once with the
1000 ms backoff and the second attempt returns the content. -/
theorem retry_classification_amended_witness :
    generateCompletion serverErrorThenGood 3 =
      { result := .ok "done", attemptsMade := 2, delays := [1000] } := by
  have h := retry_classification_amended.1 serverErrorThenGood 3 1 "done"
    (fun i hi => by
      have h0 : i = 0 := by omega
      subst h0
      decide)
    (by omega) (by decide) (by decide)
  simpa [backoffMs] using h

/-! ## Claim C9: the context privacy boundary -/

/-- C9: the cleaned generation context is a function of the whitelisted
projections only. Any two user documents (credentials included), any two
patients agreeing on birth date, gender, condition and allergy
name/description projections and medical history, any two health
concerns agreeing on the read fields, and any two prior-assessment lists
agreeing on (creation time, severity, question count, answered flag)
produce identical contexts: password, refreshToken, accessToken, __v,
llmMetadata, reportPayload and prior answer content can never influence
the serialized context. -/
theorem context_privacy_boundary :
    ∀ (nowMs : Int) (u1 u2 : UserDoc) (p1 p2 : Option PatientDoc)
      (hcA hcB : HealthConcernDoc) (prevs1 prevs2 : List PrevAssessmentDoc),
      Option.map patientProj p1 = Option.map patientProj p2 →
      concernProj hcA = concernProj hcB →
      prevs1.map prevProj = prevs2.map prevProj →
      buildAssessmentContextVal nowMs u1 p1 hcA prevs1 =
        buildAssessmentContextVal nowMs u2 p2 hcB prevs2 := by
  intro nowMs u1 u2 p1 p2 hcA hcB prevs1 prevs2 hp hh hprev
  obtain ⟨t1, cc1, sy1, od1, ov1, ou1, sv1, st1, no1, ver1⟩ := hcA
  obtain ⟨t2, cc2, sy2, od2, ov2, ou2, sv2, st2, no2, ver2⟩ := hcB
  simp only [concernProj, Prod.mk.injEq] at hh
  obtain ⟨e1, e2, e3, e4, e5, e6, e7, e8, e9⟩ := hh
  subst e1; subst e2; subst e3; subst e4; subst e5; subst e6; subst e7; subst e8; subst e9
  have hprevCtx : prevs1.map (fun a =>
      CtxVal.obj [("createdAt", .date a.createdAtMs), ("severity", .str a.severity),
        ("questionCount", .num (match a.questions with
          | some qs => (qs.length : Int)
          | none => 0)),
        ("hasResponse", .bool a.hasResponse)]) = prevs2.map (fun a =>
      CtxVal.obj [("createdAt", .date a.createdAtMs), ("severity", .str a.severity),
        ("questionCount", .num (match a.questions with
          | some qs => (qs.length : Int)
          | none => 0)),
        ("hasResponse", .bool a.hasResponse)]) := by
    have key : ∀ prevs : List PrevAssessmentDoc, prevs.map (fun a =>
        CtxVal.obj [("createdAt", .date a.createdAtMs), ("severity", .str a.severity),
          ("questionCount", .num (match a.questions with
            | some qs => (qs.length : Int)
            | none => 0)),
          ("hasResponse", .bool a.hasResponse)]) =
        (prevs.map prevProj).map (fun t =>
          CtxVal.obj [("createdAt", .date t.1), ("severity", .str t.2.1),
            ("questionCount", .num t.2.2.1), ("hasResponse", .bool t.2.2.2)]) := by
      intro prevs
      rw [List.map_map]
      rfl
    rw [key prevs1, key prevs2, hprev]
  cases p1 with
  | none =>
    cases p2 with
    | none =>
      simp only [buildAssessmentContextVal, rawAssessmentContext]
      rw [hprevCtx]
    | some pd2 => simp [patientProj] at hp
  | some pd1 =>
    cases p2 with
    | none => simp [patientProj] at hp
    | some pd2 =>
      simp only [Option.map_some', Option.some.injEq, patientProj, Prod.mk.injEq] at hp
      obtain ⟨hb, hg, hcc, hal, hmh⟩ := hp
      have hccCtx : pd1.chronicConditions.map (fun c =>
          CtxVal.obj [("name", .str c.name), ("description", .str c.description)]) =
          pd2.chronicConditions.map (fun c =>
          CtxVal.obj [("name", .str c.name), ("description", .str c.description)]) := by
        have key : ∀ l : List ChronicConditionDoc, l.map (fun c =>
            CtxVal.obj [("name", .str c.name), ("description", .str c.description)]) =
            (l.map (fun c => (c.name, c.description))).map (fun t =>
              CtxVal.obj [("name", .str t.1), ("description", .str t.2)]) := by
          intro l
          rw [List.map_map]
          rfl
        rw [key, key, hcc]
      have hccLen : pd1.chronicConditions.length = pd2.chronicConditions.length := by
        have h := congrArg List.length hcc
        simpa using h
      have halCtx : pd1.allergies.map (fun a =>
          CtxVal.obj [("name", .str a.name), ("category", .str a.category)]) =
          pd2.allergies.map (fun a =>
          CtxVal.obj [("name", .str a.name), ("category", .str a.category)]) := by
        have key : ∀ l : List AllergyDoc, l.map (fun a =>
            CtxVal.obj [("name", .str a.name), ("category", .str a.category)]) =
            (l.map (fun a => (a.name, a.category))).map (fun t =>
              CtxVal.obj [("name", .str t.1), ("category", .str t.2)]) := by
          intro l
          rw [List.map_map]
          rfl
        rw [key, key, hal]
      have halLen : pd1.allergies.length = pd2.allergies.length := by
        have h := congrArg List.length hal
        simpa using h
      simp only [buildAssessmentContextVal, rawAssessmentContext]
      rw [hb, hg, hmh, hprevCtx, hccCtx, hccLen, halCtx, halLen]

/-- Witness for C9: users differing in every credential, patients
differing in __v, concerns differing in __v, and prior assessments
differing in llmMetadata, minDays and question bodies (same count)
produce the same cleaned context. -/
theorem context_privacy_boundary_witness :
    buildAssessmentContextVal 1000
      ⟨"A", "a@x", "pw1", "rt1", "at1", "patient", 0⟩
      (some ⟨some 0, some "male", [], [], none, 0⟩)
      ⟨"T", "C", "S", some "2 days ago", some 2, some "day", some "mild", "active", none, 0⟩
      [⟨100, "low", some [], true, 14, .str "meta1", 0⟩] =
    buildAssessmentContextVal 1000
      ⟨"A", "a@x", "pw2", "rt2", "at2", "patient", 7⟩
      (some ⟨some 0, some "male", [], [], none, 3⟩)
      ⟨"T", "C", "S", some "2 days ago", some 2, some "day", some "mild", "active", none, 9⟩
      [⟨100, "low", none, true, 99, .str "meta2", 5⟩] :=
  context_privacy_boundary 1000 _ _ _ _ _ _ _ _ rfl rfl rfl

end Communicare
